import Mathlib

/-!
Verification development for the stdlib random-number repository.

The development shallowly embeds the code relevant to the frozen claims:

* the Erlang distribution factory (src/unnamed/part_004) and the
  Kumaraswamy distribution factory (src/unnamed/part_005), including their
  per-call samplers (erlang2, kumaraswamy2), construction-time validation,
  state introspection accessors and JSON serialization;
* the strided fill engine (only documented in src via
  src/unnamed/part_000), modelled from the spec;
* the shared-state aliasing protocol of the base generator (documented in
  src via the Notes of src/unnamed/part_003 and part_004), modelled from
  the spec.

JavaScript doubles are modelled as either NaN or an exact rational value:
every claim under verification concerns guard logic (NaN propagation and
sign or integrality tests), never rounding.
-/

/-- Model of a JavaScript double: either NaN or a finite value, the finite
values modelled exactly as rationals. -/
inductive JSNum where
  | nan : JSNum
  | num : ℚ → JSNum
deriving DecidableEq, Repr

/-- Embedding of stdlib math/base/assert/is-nan. -/
def isnan : JSNum → Bool
  | .nan => true
  | .num _ => false

/-- Embedding of stdlib math/base/assert/is-positive-integer: the value is
finite, integral and strictly positive. -/
def isPositiveInteger : JSNum → Bool
  | .nan => false
  | .num q => q.den == 1 && decide (0 < q)

/-- The JavaScript comparison x <= 0.0 (false when x is NaN). -/
def jsLeZero : JSNum → Bool
  | .nan => false
  | .num q => decide (q ≤ 0)

/-- The JavaScript test for a positive number used by the factory
validators: the value is finite and strictly positive (false for NaN). -/
def isPositiveNumber : JSNum → Bool
  | .nan => false
  | .num q => decide (0 < q)

/-- Spec-side predicate: the value is a valid Erlang shape, i.e. a
positive integer. -/
def isValidErlangShape (k : JSNum) : Prop :=
  ∃ n : ℕ, 0 < n ∧ k = .num (n : ℚ)

/-- Spec-side predicate: the value is a valid positive real parameter
(rate or shape). -/
def isValidPositive (x : JSNum) : Prop :=
  ∃ q : ℚ, 0 < q ∧ x = .num q

/-- Modelled from the spec: the base generator engine
(stdlib random/base/mt19937, required by the factories but not under
src/). Spec section 4.1 requires only a pure deterministic recurrence
`next(state) -> (uint, state-after)` with `seed(Seed) -> GeneratorState`,
naming a linear congruential family as one admissible instance; we model
the recurrence as a 31-bit linear congruential step. -/
def lcgStep (w : ℕ) : ℕ :=
  (1103515245 * w + 12345) % 2147483648

/-- Modelled from the spec: the internal handle of the built-in base
generator, pairing the seed used at construction with the current state
word. -/
structure MT19937 where
  seedVal : ℕ
  word : ℕ
deriving DecidableEq, Repr

/-- Modelled from the spec: deterministic seeding, deriving the initial
state from the seed (spec section 4.1 and section 3, Seed). -/
def mt19937Factory (s : ℕ) : MT19937 :=
  ⟨s, s % 2147483648⟩

/-- Modelled from the spec: one raw draw, advancing the recurrence. -/
def MT19937.next (g : MT19937) : ℕ × MT19937 :=
  let w := lcgStep g.word
  (w, ⟨g.seedVal, w⟩)

/-- Modelled from the spec: the normalized draw in [0,1), mapping the raw
output into the unit interval by dividing by the generator range. -/
def MT19937.normalized (g : MT19937) : ℚ × MT19937 :=
  let r := g.next
  ((r.1 : ℚ) / 2147483648, r.2)

/-- Modelled from the spec: the portable state snapshot (StateCodec
encode), a flat sequence of unsigned words. -/
def MT19937.stateList (g : MT19937) : List ℕ :=
  [g.word]

/-- The source of uniform draws held by a distribution handle: either the
built-in generator, or an external user-supplied callable (the prng
option), modelled as a stream of normalized values together with the call
count that forms its foreign, uninterpretable state. -/
inductive RandSource where
  | internal (g : MT19937)
  | external (f : ℕ → ℚ) (idx : ℕ)

/-- One normalized draw from a uniform source. -/
def RandSource.nextNormalized : RandSource → ℚ × RandSource
  | .internal g =>
      let r := g.normalized
      (r.1, .internal r.2)
  | .external f i => (f i, .external f (i + 1))

/-- Modelled from the spec: the Erlang transform ./erlang.js is not under
src/ and is declared out of scope by the spec (section 1): each transform
is a pure function (uniformSource, params...) -> sample. We model it as a
pure function of one normalized draw and the parameters. -/
def erlangTransform (u : ℚ) (k lambda : JSNum) : JSNum :=
  match k, lambda with
  | .num kq, .num lq => .num (kq * u / lq)
  | _, _ => .nan

/-- Embedding of the call erlang0( rand, k, lambda ): consume one
normalized draw and apply the transform. -/
def erlang0 (rand : RandSource) (k lambda : JSNum) : JSNum × RandSource :=
  let r := rand.nextNormalized
  (erlangTransform r.1 k lambda, r.2)

/-- Embedding of erlang2 (src/unnamed/part_004 lines 268-278): validate
the per-call parameters, returning NaN on any violation without touching
the uniform source, and draw otherwise. -/
def erlang2 (rand : RandSource) (k lambda : JSNum) : JSNum × RandSource :=
  if isnan k || isnan lambda || !isPositiveInteger k || jsLeZero lambda then
    (.nan, rand)
  else
    erlang0 rand k lambda

/-- Modelled from the spec: the Kumaraswamy transform ./kumaraswamy.js is
not under src/ and is out of scope (spec section 1); modelled as a pure
function of one normalized draw and the parameters. -/
def kumaraswamyTransform (u : ℚ) (a b : JSNum) : JSNum :=
  match a, b with
  | .num aq, .num bq => .num (u * aq * bq)
  | _, _ => .nan

/-- Embedding of the call kumaraswamy0( rand, a, b ). -/
def kumaraswamy0 (rand : RandSource) (a b : JSNum) : JSNum × RandSource :=
  let r := rand.nextNormalized
  (kumaraswamyTransform r.1 a b, r.2)

/-- Embedding of kumaraswamy2 (src/unnamed/part_005 lines 254-264). -/
def kumaraswamy2 (rand : RandSource) (a b : JSNum) : JSNum × RandSource :=
  if isnan a || isnan b || jsLeZero a || jsLeZero b then
    (.nan, rand)
  else
    kumaraswamy0 rand a b

/-- Modelled from the spec: ./validate.js of the Erlang package is not
under src/; the validation conditions are fixed by the factory doc
comment in src/unnamed/part_004 (throws TypeError unless k is a positive
integer and lambda is a positive number). -/
def erlangValidate (k lambda : JSNum) : Option String :=
  if !isPositiveInteger k then
    some "k must be a positive integer"
  else if !isPositiveNumber lambda then
    some "lambda must be a positive number"
  else
    none

/-- Modelled from the spec: ./validate.js of the Kumaraswamy package is
not under src/; conditions fixed by the factory doc comment in
src/unnamed/part_005 (throws TypeError unless a and b are positive
numbers). -/
def kumaraswamyValidate (a b : JSNum) : Option String :=
  if !isPositiveNumber a then
    some "a must be a positive number"
  else if !isPositiveNumber b then
    some "b must be a positive number"
  else
    none

/-- The options object accepted by the distribution factories, restricted
to the fields the claims exercise: the external prng option and the seed
option. -/
structure FactoryOpts where
  prng : Option (ℕ → ℚ)
  seed : Option ℕ

/-- The argument shapes of a distribution factory call: no arguments, an
options object only, or bound parameters optionally followed by an
options object (src/unnamed/part_004 lines 78-116). -/
inductive FactoryArgs where
  | noArgs
  | optsOnly (o : FactoryOpts)
  | withParams (p1 p2 : JSNum) (o : Option FactoryOpts)

/-- Default seed used when none is supplied; the code then calls randu()
with default entropy, which we model as a fixed constant. -/
def defaultSeed : ℕ := 0

/-- Construction of the uniform source from the options: the prng option
wins, else a built-in generator seeded from the seed option
(src/unnamed/part_004 lines 85-92 and 105-112). -/
def mkRand : Option FactoryOpts → RandSource
  | none => .internal (mt19937Factory defaultSeed)
  | some o =>
      match o.prng with
      | some f => .external f 0
      | none => .internal (mt19937Factory (o.seed.getD defaultSeed))

/-- The handle returned by a distribution factory: the generator NAME,
the uniform source and the bound parameters (none when parameters are
supplied per call). -/
structure DistHandle where
  name : String
  rand : RandSource
  bound : Option (JSNum × JSNum)

/-- Embedding of the Erlang factory (src/unnamed/part_004 lines 70-143):
bound parameters are validated eagerly and a validation failure throws,
modelled as Except.error. -/
def erlangFactory : FactoryArgs → Except String DistHandle
  | .noArgs => .ok ⟨"erlang", mkRand none, none⟩
  | .optsOnly o => .ok ⟨"erlang", mkRand (some o), none⟩
  | .withParams k lambda o =>
      match erlangValidate k lambda with
      | some e => .error e
      | none => .ok ⟨"erlang", mkRand o, some (k, lambda)⟩

/-- Embedding of the Kumaraswamy factory (src/unnamed/part_005 lines
69-142). -/
def kumaraswamyFactory : FactoryArgs → Except String DistHandle
  | .noArgs => .ok ⟨"kumaraswamy", mkRand none, none⟩
  | .optsOnly o => .ok ⟨"kumaraswamy", mkRand (some o), none⟩
  | .withParams a b o =>
      match kumaraswamyValidate a b with
      | some e => .error e
      | none => .ok ⟨"kumaraswamy", mkRand o, some (a, b)⟩

/-- The seed accessor: null for a handle wrapping an external prng
(src/unnamed/part_004 line 126), else the seed of the underlying
generator (line 134 and 151-153). -/
def DistHandle.seed : DistHandle → Option ℕ
  | ⟨_, .external _ _, _⟩ => none
  | ⟨_, .internal g, _⟩ => some g.seedVal

/-- The seedLength accessor: null for an external prng (line 127), else
the seed length of the underlying generator. -/
def DistHandle.seedLength : DistHandle → Option ℕ
  | ⟨_, .external _ _, _⟩ => none
  | ⟨_, .internal _, _⟩ => some 1

/-- The state accessor (getter): null for an external prng (line 128),
else the state snapshot of the underlying generator. -/
def DistHandle.stateGet : DistHandle → Option (List ℕ)
  | ⟨_, .external _ _, _⟩ => none
  | ⟨_, .internal g, _⟩ => some g.stateList

/-- The stateLength accessor: null for an external prng (line 129). -/
def DistHandle.stateLength : DistHandle → Option ℕ
  | ⟨_, .external _ _, _⟩ => none
  | ⟨_, .internal g, _⟩ => some g.stateList.length

/-- The byteLength accessor: null for an external prng (line 130), else
four bytes per 32-bit state word. -/
def DistHandle.byteLength : DistHandle → Option ℕ
  | ⟨_, .external _ _, _⟩ => none
  | ⟨_, .internal g, _⟩ => some (4 * g.stateList.length)

/-- Modelled from the spec: installing a state snapshot into the built-in
generator (the mt19937 state setter is not under src/); a snapshot of the
wrong length is rejected (StateCodec decode, spec section 4.2). -/
def mtSetState (g : MT19937) (s : List ℕ) : Except String MT19937 :=
  match s with
  | [w] => .ok ⟨g.seedVal, w % 2147483648⟩
  | _ => .error "must provide a valid state"

/-- The state accessor (setter): for an external prng the setter is noop
(src/unnamed/part_004 line 128), silently ignoring the assignment; else
the assignment is forwarded to the underlying generator (lines 136 and
202-204). -/
def DistHandle.setState (h : DistHandle) (s : List ℕ) : Except String DistHandle :=
  match h.rand with
  | .external _ _ => .ok h
  | .internal g =>
      match mtSetState g s with
      | .ok g2 => .ok { h with rand := .internal g2 }
      | .error e => .error e

/-- The JSON object produced by toJSON (src/unnamed/part_004 lines
216-227). -/
structure PRNGJson where
  type : String
  name : String
  state : List ℕ
  params : List JSNum
deriving DecidableEq, Repr

/-- Embedding of toJSON: null for a handle wrapping an external prng
(src/unnamed/part_004 line 131), else the {type, name, state, params}
object, params empty when no parameters were bound (lines 216-227). -/
def DistHandle.toJSON : DistHandle → Option PRNGJson
  | ⟨_, .external _ _, _⟩ => none
  | ⟨n, .internal g, bound⟩ =>
      some ⟨"PRNG", n, g.stateList,
            match bound with
            | none => []
            | some (p1, p2) => [p1, p2]⟩

/-- Drawing a sequence of n values through the per-call Erlang sampler,
threading the handle state. -/
def erlangDrawSeq (h : DistHandle) (k lambda : JSNum) : ℕ → List JSNum
  | 0 => []
  | n + 1 =>
      let r := erlang2 h.rand k lambda
      r.1 :: erlangDrawSeq { h with rand := r.2 } k lambda n

/-- Pointwise update of a total map over integer indices, used to model a
write into a strided output array (spec section 3, StridedDescriptor: no
bounds validation is performed by the core). -/
def updInt (f : ℤ → JSNum) (i : ℤ) (v : JSNum) : ℤ → JSNum :=
  fun j => if j = i then v else f j

/-- Modelled from the spec: the offset implied by the view-offset
convention (spec section 4.5; src/unnamed/part_000 line 724: indexing is
relative to the first index, so a negative stride walks backward ending
at index 0). -/
def stride2offset (N : ℤ) (s : ℤ) : ℤ :=
  if s < 0 then (1 - N) * s else 0

/-- Modelled from the spec: the strided fill loop (StridedFillEngine,
spec section 4.5): for logical index i, each parameter is read at
paramOffset + i*paramStride, the sampler is invoked, and the result is
written at outOffset + i*outStride. The implementation is not under src/
(src/unnamed/part_000 holds only declarations and docs). -/
def fillLoop (sampler : JSNum → JSNum → RandSource → JSNum × RandSource)
    (aArr : ℤ → JSNum) (sa oa : ℤ) (bArr : ℤ → JSNum) (sb ob : ℤ)
    (so oo : ℤ) : ℕ → ℕ → (ℤ → JSNum) → RandSource → (ℤ → JSNum) × RandSource
  | _, 0, out, rand => (out, rand)
  | i, m + 1, out, rand =>
      let v := sampler (aArr (oa + i * sa)) (bArr (ob + i * sb)) rand
      fillLoop sampler aArr sa oa bArr sb ob so oo (i + 1) m
        (updInt out (oo + i * so) v.1) v.2

/-- Modelled from the spec: the explicit-offset (ndarray) form of the
strided fill (spec section 4.5; signature per src/unnamed/part_000 line
744): N <= 0 performs zero writes and returns the output reference. -/
def fillNdarray (sampler : JSNum → JSNum → RandSource → JSNum × RandSource)
    (N : ℤ) (aArr : ℤ → JSNum) (sa oa : ℤ) (bArr : ℤ → JSNum) (sb ob : ℤ)
    (out : ℤ → JSNum) (so oo : ℤ) (rand : RandSource) : (ℤ → JSNum) × RandSource :=
  if N ≤ 0 then (out, rand)
  else fillLoop sampler aArr sa oa bArr sb ob so oo 0 N.toNat out rand

/-- Modelled from the spec: the view-offset form of the strided fill
(spec section 4.5): offsets are implicit in the buffer view, derived from
each stride so that indexing stays relative to the first accessed
element. -/
def fillStrided (sampler : JSNum → JSNum → RandSource → JSNum × RandSource)
    (N : ℤ) (aArr : ℤ → JSNum) (sa : ℤ) (bArr : ℤ → JSNum) (sb : ℤ)
    (out : ℤ → JSNum) (so : ℤ) (rand : RandSource) : (ℤ → JSNum) × RandSource :=
  fillNdarray sampler N aArr sa (stride2offset N sa) bArr sb (stride2offset N sb)
    out so (stride2offset N so) rand

/-- Modelled from the spec: the storage cells backing shared generator
state (spec section 4.3 and the Notes of src/unnamed/part_003 lines
359-363): cells is the backing store, size the number of live cells. -/
structure SharedStore where
  cells : ℕ → List ℕ
  size : ℕ

/-- Modelled from the spec: a handle participating in shared state holds
a reference into the common store rather than a private copy (copy:false
construction, spec section 4.3); the tag distinguishes handles aliasing
the same storage. -/
structure SharedHandle where
  tag : ℕ
  ref : ℕ

/-- Pointwise update of the backing store. -/
def storeSet (c : ℕ → List ℕ) (i : ℕ) (s : List ℕ) : ℕ → List ℕ :=
  fun j => if j = i then s else c j

/-- The state a sharing handle currently observes. -/
def sharedStateOf (st : SharedStore) (h : SharedHandle) : List ℕ :=
  st.cells h.ref

/-- Modelled from the spec: assigning a new state through a sharing
handle (Notes of src/unnamed/part_003 lines 359-363 and part_004 lines
637-638): a same-length assignment updates the common storage in place,
visible to every aliasing handle; a different-length assignment detaches
only the assigning handle to fresh storage, leaving the common storage
and all other handles untouched. -/
def sharedSetState (st : SharedStore) (h : SharedHandle) (s : List ℕ) :
    SharedStore × SharedHandle :=
  if s.length = (st.cells h.ref).length then
    (⟨storeSet st.cells h.ref s, st.size⟩, h)
  else
    (⟨storeSet st.cells st.size s, st.size + 1⟩, ⟨h.tag, st.size⟩)

/-- Modelled from the spec: a raw draw through a sharing handle advances
the referenced state in place, so the mutation is visible to every
aliasing handle (spec section 3, GeneratorState lifecycle). -/
def sharedDraw (st : SharedStore) (h : SharedHandle) : ℕ × SharedStore :=
  match st.cells h.ref with
  | [] => (0, st)
  | w :: rest =>
      let w2 := lcgStep w
      (w2, ⟨storeSet st.cells h.ref (w2 :: rest), st.size⟩)

/-- The raw value one draw produces from a given state snapshot. -/
def drawValueOf (s : List ℕ) : ℕ :=
  match s with
  | [] => 0
  | w :: _ => lcgStep w

lemma isPositiveInteger_iff (k : JSNum) :
    isPositiveInteger k = true ↔ isValidErlangShape k := by
  cases k with
  | nan => simp [isPositiveInteger, isValidErlangShape]
  | num q =>
    simp only [isPositiveInteger, Bool.and_eq_true, beq_iff_eq, decide_eq_true_eq,
      isValidErlangShape, JSNum.num.injEq]
    constructor
    · rintro ⟨hden, hpos⟩
      have hnum : (0:ℤ) < q.num := Rat.num_pos.mpr hpos
      refine ⟨q.num.toNat, by omega, ?_⟩
      have hq : (q.num : ℚ) = q := (Rat.den_eq_one_iff q).mp hden
      rw [← hq]
      norm_cast
      omega
    · rintro ⟨n, hn, rfl⟩
      refine ⟨Rat.den_natCast n, ?_⟩
      exact_mod_cast hn

lemma isPositiveNumber_iff (x : JSNum) :
    isPositiveNumber x = true ↔ isValidPositive x := by
  cases x with
  | nan => simp [isPositiveNumber, isValidPositive]
  | num q =>
    simp only [isPositiveNumber, decide_eq_true_eq, isValidPositive, JSNum.num.injEq]
    constructor
    · intro h
      exact ⟨q, h, rfl⟩
    · rintro ⟨r, hr, rfl⟩
      exact hr

lemma erlang2_guard_iff (k lambda : JSNum) :
    (isnan k || isnan lambda || !isPositiveInteger k || jsLeZero lambda) = true
      ↔ ¬ isValidErlangShape k ∨ ¬ isValidPositive lambda := by
  rw [← isPositiveInteger_iff, ← isPositiveNumber_iff]
  cases k with
  | nan => cases lambda <;> simp [isnan, isPositiveInteger]
  | num q =>
    cases lambda with
    | nan => simp [isnan, isPositiveNumber]
    | num r =>
      simp [isnan, isPositiveInteger, jsLeZero, isPositiveNumber, not_lt,
        le_iff_lt_or_eq]
      tauto

lemma kumaraswamy2_guard_iff (a b : JSNum) :
    (isnan a || isnan b || jsLeZero a || jsLeZero b) = true
      ↔ ¬ isValidPositive a ∨ ¬ isValidPositive b := by
  rw [← isPositiveNumber_iff, ← isPositiveNumber_iff]
  cases a <;> cases b <;>
    simp [isnan, jsLeZero, isPositiveNumber, not_lt]

lemma sharedDraw_fst (st : SharedStore) (h : SharedHandle) :
    (sharedDraw st h).1 = drawValueOf (sharedStateOf st h) := by
  unfold sharedDraw drawValueOf sharedStateOf
  cases st.cells h.ref <;> rfl

/-- Claim C2: a sampler with per-call (unbound) distribution parameters returns
NaN as the sample value on any invalid parameter combination (a NaN
parameter, a non-positive shape or rate, a non-integer Erlang shape) and
never throws: erlang2 and kumaraswamy2 are total functions returning NaN
under exactly these violations (src/unnamed/part_004 lines 268-278,
src/unnamed/part_005 lines 254-264). -/
theorem erlang2_kumaraswamy2_invalid_yield_nan (rand1 rand2 : RandSource)
    (k lambda a b : JSNum)
    (hkl : ¬ isValidErlangShape k ∨ ¬ isValidPositive lambda)
    (hab : ¬ isValidPositive a ∨ ¬ isValidPositive b) :
    (erlang2 rand1 k lambda).1 = .nan ∧ (kumaraswamy2 rand2 a b).1 = .nan := by
  constructor
  · rw [erlang2, if_pos ((erlang2_guard_iff k lambda).mpr hkl)]
  · rw [kumaraswamy2, if_pos ((kumaraswamy2_guard_iff a b).mpr hab)]

theorem erlang2_kumaraswamy2_invalid_yield_nan_witness :
    (erlang2 (.internal (mt19937Factory 0)) (.num 2) (.num (-1))).1 = .nan ∧
    (kumaraswamy2 (.internal (mt19937Factory 0)) (.num 2) (.num (-1))).1 = .nan :=
  erlang2_kumaraswamy2_invalid_yield_nan _ _ _ _ _ _
    (Or.inr (by simp [isValidPositive]))
    (Or.inr (by simp [isValidPositive]))

/-- Claim C9: an invalid-parameter per-call invocation returns without invoking
the underlying uniform source: the generator state is unchanged, so the
next call draws exactly the values it would have drawn had the failed
call never happened (src/unnamed/part_004 lines 268-278,
src/unnamed/part_005 lines 254-264: the guard returns before erlang0 or
kumaraswamy0 touches rand). -/
theorem invalid_call_leaves_generator_untouched (rand1 rand2 : RandSource)
    (k lambda k2 lambda2 a b a2 b2 : JSNum)
    (hkl : ¬ isValidErlangShape k ∨ ¬ isValidPositive lambda)
    (hab : ¬ isValidPositive a ∨ ¬ isValidPositive b) :
    ((erlang2 rand1 k lambda).2 = rand1 ∧
      erlang2 (erlang2 rand1 k lambda).2 k2 lambda2 = erlang2 rand1 k2 lambda2) ∧
    ((kumaraswamy2 rand2 a b).2 = rand2 ∧
      kumaraswamy2 (kumaraswamy2 rand2 a b).2 a2 b2 = kumaraswamy2 rand2 a2 b2) := by
  have h1 : (erlang2 rand1 k lambda).2 = rand1 := by
    rw [erlang2, if_pos ((erlang2_guard_iff k lambda).mpr hkl)]
  have h2 : (kumaraswamy2 rand2 a b).2 = rand2 := by
    rw [kumaraswamy2, if_pos ((kumaraswamy2_guard_iff a b).mpr hab)]
  exact ⟨⟨h1, by rw [h1]⟩, ⟨h2, by rw [h2]⟩⟩

theorem invalid_call_leaves_generator_untouched_witness :
    ((erlang2 (.internal (mt19937Factory 7)) (.num (3/2)) (.num 1)).2
        = RandSource.internal (mt19937Factory 7) ∧
      erlang2 (erlang2 (.internal (mt19937Factory 7)) (.num (3/2)) (.num 1)).2 (.num 2) (.num 1)
        = erlang2 (.internal (mt19937Factory 7)) (.num 2) (.num 1)) ∧
    ((kumaraswamy2 (.internal (mt19937Factory 7)) .nan (.num 1)).2
        = RandSource.internal (mt19937Factory 7) ∧
      kumaraswamy2 (kumaraswamy2 (.internal (mt19937Factory 7)) .nan (.num 1)).2 (.num 2) (.num 3)
        = kumaraswamy2 (.internal (mt19937Factory 7)) (.num 2) (.num 3)) :=
  invalid_call_leaves_generator_untouched _ _ _ _ _ _ _ _ _ _
    (Or.inl (by
      rintro ⟨n, hn, hmm⟩
      simp only [JSNum.num.injEq] at hmm
      have : ((3:ℚ)/2).den = 1 := by rw [hmm]; exact Rat.den_natCast n
      norm_num at this))
    (Or.inl (by rintro ⟨q, hq, hmm⟩; exact JSNum.noConfusion hmm))

/-- Claim C4: a factory call that binds distribution parameters at construction
validates them eagerly and throws a configuration error on invalid bound
parameters, rather than returning a sampler (src/unnamed/part_004 lines
93-99, src/unnamed/part_005 lines 92-98). -/
theorem bound_invalid_params_fail_fast (k lambda a b : JSNum)
    (o1 o2 : Option FactoryOpts)
    (hkl : ¬ isValidErlangShape k ∨ ¬ isValidPositive lambda)
    (hab : ¬ isValidPositive a ∨ ¬ isValidPositive b) :
    (∃ e, erlangFactory (.withParams k lambda o1) = .error e) ∧
    (∃ e, kumaraswamyFactory (.withParams a b o2) = .error e) := by
  constructor
  · rcases hkl with h | h
    · have hb : isPositiveInteger k = false := by
        cases hk : isPositiveInteger k
        · rfl
        · exact absurd ((isPositiveInteger_iff k).mp hk) h
      exact ⟨"k must be a positive integer", by simp [erlangFactory, erlangValidate, hb]⟩
    · have hb : isPositiveNumber lambda = false := by
        cases hl : isPositiveNumber lambda
        · rfl
        · exact absurd ((isPositiveNumber_iff lambda).mp hl) h
      cases hk : isPositiveInteger k
      · exact ⟨"k must be a positive integer", by simp [erlangFactory, erlangValidate, hk]⟩
      · exact ⟨"lambda must be a positive number",
          by simp [erlangFactory, erlangValidate, hk, hb]⟩
  · rcases hab with h | h
    · have hb : isPositiveNumber a = false := by
        cases ha : isPositiveNumber a
        · rfl
        · exact absurd ((isPositiveNumber_iff a).mp ha) h
      exact ⟨"a must be a positive number",
        by simp [kumaraswamyFactory, kumaraswamyValidate, hb]⟩
    · have hb : isPositiveNumber b = false := by
        cases hbb : isPositiveNumber b
        · rfl
        · exact absurd ((isPositiveNumber_iff b).mp hbb) h
      cases ha : isPositiveNumber a
      · exact ⟨"a must be a positive number",
          by simp [kumaraswamyFactory, kumaraswamyValidate, ha]⟩
      · exact ⟨"b must be a positive number",
          by simp [kumaraswamyFactory, kumaraswamyValidate, ha, hb]⟩

theorem bound_invalid_params_fail_fast_witness :
    (∃ e, erlangFactory (.withParams (.num 2) (.num (-1)) none) = .error e) ∧
    (∃ e, kumaraswamyFactory (.withParams (.num 0) (.num 1) none) = .error e) :=
  bound_invalid_params_fail_fast _ _ _ _ none none
    (Or.inr (by simp [isValidPositive]))
    (Or.inl (by simp [isValidPositive]))

/-- Claim C3: a handle constructed with an external uniform-source callable
(the prng option) reads null from every state-introspection property:
seed, seedLength, state, stateLength and byteLength
(src/unnamed/part_004 lines 124-132, src/unnamed/part_005 lines
123-131). -/
theorem external_prng_state_introspection_null (f : ℕ → ℚ) (sd : Option ℕ)
    (h1 h2 : DistHandle)
    (e1 : erlangFactory (.optsOnly ⟨some f, sd⟩) = .ok h1)
    (e2 : kumaraswamyFactory (.optsOnly ⟨some f, sd⟩) = .ok h2) :
    (h1.seed = none ∧ h1.seedLength = none ∧ h1.stateGet = none ∧
      h1.stateLength = none ∧ h1.byteLength = none) ∧
    (h2.seed = none ∧ h2.seedLength = none ∧ h2.stateGet = none ∧
      h2.stateLength = none ∧ h2.byteLength = none) := by
  have e1b : Except.ok (ε := String)
      (⟨"erlang", .external f 0, none⟩ : DistHandle) = .ok h1 := e1
  have e2b : Except.ok (ε := String)
      (⟨"kumaraswamy", .external f 0, none⟩ : DistHandle) = .ok h2 := e2
  injection e1b with hh1
  injection e2b with hh2
  subst hh1
  subst hh2
  exact ⟨⟨rfl, rfl, rfl, rfl, rfl⟩, ⟨rfl, rfl, rfl, rfl, rfl⟩⟩

theorem external_prng_state_introspection_null_witness :
    ((⟨"erlang", .external (fun _ => 1/2) 0, none⟩ : DistHandle).seed = none ∧
      (⟨"erlang", .external (fun _ => 1/2) 0, none⟩ : DistHandle).seedLength = none ∧
      (⟨"erlang", .external (fun _ => 1/2) 0, none⟩ : DistHandle).stateGet = none ∧
      (⟨"erlang", .external (fun _ => 1/2) 0, none⟩ : DistHandle).stateLength = none ∧
      (⟨"erlang", .external (fun _ => 1/2) 0, none⟩ : DistHandle).byteLength = none) ∧
    ((⟨"kumaraswamy", .external (fun _ => 1/2) 0, none⟩ : DistHandle).seed = none ∧
      (⟨"kumaraswamy", .external (fun _ => 1/2) 0, none⟩ : DistHandle).seedLength = none ∧
      (⟨"kumaraswamy", .external (fun _ => 1/2) 0, none⟩ : DistHandle).stateGet = none ∧
      (⟨"kumaraswamy", .external (fun _ => 1/2) 0, none⟩ : DistHandle).stateLength = none ∧
      (⟨"kumaraswamy", .external (fun _ => 1/2) 0, none⟩ : DistHandle).byteLength = none) :=
  external_prng_state_introspection_null (fun _ => 1/2) none _ _ rfl rfl

/-- Claim C10: on a handle constructed with the prng option, assigning to the
state property is silently ignored: the setter is a noop that neither
throws nor changes the handle, and reading state afterwards still
returns null (src/unnamed/part_004 line 128, src/unnamed/part_005 line
127: the setter installed for an external prng is noop). -/
theorem external_prng_state_setter_noop (f : ℕ → ℚ) (sd : Option ℕ)
    (s1 s2 : List ℕ) (h1 h2 : DistHandle)
    (e1 : erlangFactory (.optsOnly ⟨some f, sd⟩) = .ok h1)
    (e2 : kumaraswamyFactory (.optsOnly ⟨some f, sd⟩) = .ok h2) :
    (h1.setState s1 = .ok h1 ∧ h1.stateGet = none ∧
      ∀ h3, h1.setState s1 = .ok h3 → h3.stateGet = none) ∧
    (h2.setState s2 = .ok h2 ∧ h2.stateGet = none ∧
      ∀ h3, h2.setState s2 = .ok h3 → h3.stateGet = none) := by
  have e1b : Except.ok (ε := String)
      (⟨"erlang", .external f 0, none⟩ : DistHandle) = .ok h1 := e1
  have e2b : Except.ok (ε := String)
      (⟨"kumaraswamy", .external f 0, none⟩ : DistHandle) = .ok h2 := e2
  injection e1b with hh1
  injection e2b with hh2
  subst hh1
  subst hh2
  refine ⟨⟨rfl, rfl, ?_⟩, ⟨rfl, rfl, ?_⟩⟩
  · intro h3 hset
    have : Except.ok (ε := String)
        (⟨"erlang", .external f 0, none⟩ : DistHandle) = .ok h3 := hset
    injection this with hh3
    subst hh3
    rfl
  · intro h3 hset
    have : Except.ok (ε := String)
        (⟨"kumaraswamy", .external f 0, none⟩ : DistHandle) = .ok h3 := hset
    injection this with hh3
    subst hh3
    rfl

theorem external_prng_state_setter_noop_witness :
    ((⟨"erlang", .external (fun _ => 1/4) 0, none⟩ : DistHandle).setState [3]
        = .ok ⟨"erlang", .external (fun _ => 1/4) 0, none⟩ ∧
      (⟨"erlang", .external (fun _ => 1/4) 0, none⟩ : DistHandle).stateGet = none ∧
      ∀ h3, (⟨"erlang", .external (fun _ => 1/4) 0, none⟩ : DistHandle).setState [3]
          = .ok h3 → h3.stateGet = none) ∧
    ((⟨"kumaraswamy", .external (fun _ => 1/4) 0, none⟩ : DistHandle).setState [4, 5]
        = .ok ⟨"kumaraswamy", .external (fun _ => 1/4) 0, none⟩ ∧
      (⟨"kumaraswamy", .external (fun _ => 1/4) 0, none⟩ : DistHandle).stateGet = none ∧
      ∀ h3, (⟨"kumaraswamy", .external (fun _ => 1/4) 0, none⟩ : DistHandle).setState [4, 5]
          = .ok h3 → h3.stateGet = none) :=
  external_prng_state_setter_noop (fun _ => 1/4) none [3] [4, 5] _ _ rfl rfl

/-- Claim C1: two generators constructed independently with the same seed
produce element-for-element identical draw sequences: the sampler output
is a deterministic function of the seed and the draw index
(src/unnamed/part_004 lines 100-116, src/unnamed/part_005 lines 99-115:
the uniform source is constructed deterministically from the seed
option). -/
theorem seeded_construction_deterministic (s n : ℕ) (k lambda : JSNum)
    (h1 h2 : DistHandle)
    (e1 : erlangFactory (.optsOnly ⟨none, some s⟩) = .ok h1)
    (e2 : erlangFactory (.optsOnly ⟨none, some s⟩) = .ok h2) :
    erlangDrawSeq h1 k lambda n = erlangDrawSeq h2 k lambda n := by
  rw [e1] at e2
  injection e2 with hh
  rw [hh]

theorem seeded_construction_deterministic_witness :
    erlangDrawSeq ⟨"erlang", .internal (mt19937Factory 1234), none⟩ (.num 2) (.num 1) 5
      = erlangDrawSeq ⟨"erlang", .internal (mt19937Factory 1234), none⟩ (.num 2) (.num 1) 5 :=
  seeded_construction_deterministic 1234 5 (.num 2) (.num 1) _ _ rfl rfl

/-- Claim C8: on a handle supporting state introspection, toJSON returns an
object {type, name, state, params} with type PRNG and params the empty
list when no parameters were bound and the bound pair otherwise; on a
handle wrapping an external uniform source, toJSON returns null
(src/unnamed/part_004 lines 131 and 216-227, src/unnamed/part_005 lines
130 and 215-226). -/
theorem toJSON_shape_and_external_null (f : ℕ → ℚ) (s : ℕ) (k lambda : JSNum)
    (hu hb he : DistHandle)
    (eu : erlangFactory (.optsOnly ⟨none, some s⟩) = .ok hu)
    (eb : erlangFactory (.withParams k lambda (some ⟨none, some s⟩)) = .ok hb)
    (ee : erlangFactory (.optsOnly ⟨some f, none⟩) = .ok he) :
    (∃ st, hu.toJSON = some ⟨"PRNG", "erlang", st, []⟩) ∧
    (∃ st, hb.toJSON = some ⟨"PRNG", "erlang", st, [k, lambda]⟩) ∧
    he.toJSON = none := by
  have eub : Except.ok (ε := String)
      (⟨"erlang", .internal (mt19937Factory s), none⟩ : DistHandle) = .ok hu := eu
  injection eub with hhu
  subst hhu
  have eeb : Except.ok (ε := String)
      (⟨"erlang", .external f 0, none⟩ : DistHandle) = .ok he := ee
  injection eeb with hhe
  subst hhe
  refine ⟨⟨(mt19937Factory s).stateList, rfl⟩, ?_, rfl⟩
  cases hv : erlangValidate k lambda with
  | some e =>
    rw [erlangFactory] at eb
    simp only [hv] at eb
    exact Except.noConfusion eb
  | none =>
    rw [erlangFactory] at eb
    simp only [hv] at eb
    injection eb with hhb
    subst hhb
    exact ⟨(mt19937Factory s).stateList, rfl⟩

theorem toJSON_shape_and_external_null_witness :
    (∃ st, (⟨"erlang", .internal (mt19937Factory 1234), none⟩ : DistHandle).toJSON
        = some ⟨"PRNG", "erlang", st, []⟩) ∧
    (∃ st, (⟨"erlang", .internal (mt19937Factory 1234),
        some (.num 2, .num 1)⟩ : DistHandle).toJSON
        = some ⟨"PRNG", "erlang", st, [.num 2, .num 1]⟩) ∧
    (⟨"erlang", .external (fun _ => 1/3) 0, none⟩ : DistHandle).toJSON = none :=
  toJSON_shape_and_external_null (fun _ => 1/3) 1234 (.num 2) (.num 1) _ _ _
    rfl (by rfl) rfl

/-- Claim C5: for handles sharing one generator state (copy:false from the same
state array), assigning a same-length state through one handle updates
the common storage, so every sharing handle observes the new state and
its next draw reflects it; assigning a different-length state detaches
only the assigning handle to fresh storage while the other handles stay
aliased to the old storage and keep drawing from it
(src/unnamed/part_004 lines 195-204; Notes of src/unnamed/part_003 lines
359-363). -/
theorem shared_state_assignment_aliasing (st : SharedStore) (h1 h2 : SharedHandle)
    (s : List ℕ)
    (href : h1.ref = h2.ref) (hlt1 : h1.ref < st.size) (hlt2 : h2.ref < st.size) :
    (s.length = (sharedStateOf st h1).length →
      sharedStateOf (sharedSetState st h1 s).1 (sharedSetState st h1 s).2 = s ∧
      sharedStateOf (sharedSetState st h1 s).1 h2 = s ∧
      (sharedDraw (sharedSetState st h1 s).1 h2).1 = drawValueOf s ∧
      (sharedDraw (sharedSetState st h1 s).1 (sharedSetState st h1 s).2).1
        = drawValueOf s) ∧
    (s.length ≠ (sharedStateOf st h1).length →
      sharedStateOf (sharedSetState st h1 s).1 (sharedSetState st h1 s).2 = s ∧
      (sharedDraw (sharedSetState st h1 s).1 (sharedSetState st h1 s).2).1
        = drawValueOf s ∧
      sharedStateOf (sharedSetState st h1 s).1 h2 = sharedStateOf st h2 ∧
      (sharedDraw (sharedSetState st h1 s).1 h2).1 = (sharedDraw st h2).1) := by
  constructor
  · intro hlen
    have hlen2 : s.length = (st.cells h1.ref).length := hlen
    have hif : sharedSetState st h1 s = (⟨storeSet st.cells h1.ref s, st.size⟩, h1) := by
      rw [sharedSetState, if_pos hlen2]
    rw [hif]
    have hs1 : sharedStateOf (⟨storeSet st.cells h1.ref s, st.size⟩ : SharedStore) h1 = s := by
      simp [sharedStateOf, storeSet]
    have hs2 : sharedStateOf (⟨storeSet st.cells h1.ref s, st.size⟩ : SharedStore) h2 = s := by
      simp [sharedStateOf, storeSet, href.symm]
    refine ⟨hs1, hs2, ?_, ?_⟩
    · rw [sharedDraw_fst, hs2]
    · rw [sharedDraw_fst, hs1]
  · intro hlen
    have hlen2 : ¬ s.length = (st.cells h1.ref).length := hlen
    have hif : sharedSetState st h1 s
        = (⟨storeSet st.cells st.size s, st.size + 1⟩, ⟨h1.tag, st.size⟩) := by
      rw [sharedSetState, if_neg hlen2]
    rw [hif]
    have hs1 : sharedStateOf (⟨storeSet st.cells st.size s, st.size + 1⟩ : SharedStore)
        (⟨h1.tag, st.size⟩ : SharedHandle) = s := by
      simp [sharedStateOf, storeSet]
    have hs2 : sharedStateOf (⟨storeSet st.cells st.size s, st.size + 1⟩ : SharedStore) h2
        = sharedStateOf st h2 := by
      have hne : h2.ref ≠ st.size := Nat.ne_of_lt hlt2
      simp [sharedStateOf, storeSet, hne]
    refine ⟨hs1, ?_, hs2, ?_⟩
    · rw [sharedDraw_fst, hs1]
    · rw [sharedDraw_fst, hs2, sharedDraw_fst]

theorem shared_state_assignment_aliasing_witness :
    (sharedStateOf
        (sharedSetState ⟨fun i => if i = 0 then [5] else [], 1⟩ ⟨0, 0⟩ [7]).1
        (sharedSetState ⟨fun i => if i = 0 then [5] else [], 1⟩ ⟨0, 0⟩ [7]).2 = [7] ∧
      sharedStateOf
        (sharedSetState ⟨fun i => if i = 0 then [5] else [], 1⟩ ⟨0, 0⟩ [7]).1 ⟨1, 0⟩ = [7] ∧
      (sharedDraw
        (sharedSetState ⟨fun i => if i = 0 then [5] else [], 1⟩ ⟨0, 0⟩ [7]).1 ⟨1, 0⟩).1
        = drawValueOf [7] ∧
      (sharedDraw
        (sharedSetState ⟨fun i => if i = 0 then [5] else [], 1⟩ ⟨0, 0⟩ [7]).1
        (sharedSetState ⟨fun i => if i = 0 then [5] else [], 1⟩ ⟨0, 0⟩ [7]).2).1
        = drawValueOf [7]) ∧
    (sharedStateOf
        (sharedSetState ⟨fun i => if i = 0 then [5] else [], 1⟩ ⟨0, 0⟩ [7, 8]).1
        (sharedSetState ⟨fun i => if i = 0 then [5] else [], 1⟩ ⟨0, 0⟩ [7, 8]).2 = [7, 8] ∧
      (sharedDraw
        (sharedSetState ⟨fun i => if i = 0 then [5] else [], 1⟩ ⟨0, 0⟩ [7, 8]).1
        (sharedSetState ⟨fun i => if i = 0 then [5] else [], 1⟩ ⟨0, 0⟩ [7, 8]).2).1
        = drawValueOf [7, 8] ∧
      sharedStateOf
        (sharedSetState ⟨fun i => if i = 0 then [5] else [], 1⟩ ⟨0, 0⟩ [7, 8]).1 ⟨1, 0⟩
        = sharedStateOf ⟨fun i => if i = 0 then [5] else [], 1⟩ ⟨1, 0⟩ ∧
      (sharedDraw
        (sharedSetState ⟨fun i => if i = 0 then [5] else [], 1⟩ ⟨0, 0⟩ [7, 8]).1 ⟨1, 0⟩).1
        = (sharedDraw ⟨fun i => if i = 0 then [5] else [], 1⟩ ⟨1, 0⟩).1) :=
  ⟨(shared_state_assignment_aliasing ⟨fun i => if i = 0 then [5] else [], 1⟩
      ⟨0, 0⟩ ⟨1, 0⟩ [7] rfl (by decide) (by decide)).1 (by rfl),
   (shared_state_assignment_aliasing ⟨fun i => if i = 0 then [5] else [], 1⟩
      ⟨0, 0⟩ ⟨1, 0⟩ [7, 8] rfl (by decide) (by decide)).2 (by decide)⟩

lemma updInt_shift (f : ℤ → JSNum) (shift x : ℤ) (v : JSNum) :
    updInt (fun j => f (shift + j)) x v = fun j => updInt f (shift + x) v (shift + j) := by
  funext j
  simp only [updInt]
  by_cases hj : j = x
  · subst hj
    simp
  · rw [if_neg hj, if_neg (by omega)]

lemma fillLoop_shift (sampler : JSNum → JSNum → RandSource → JSNum × RandSource)
    (aArr : ℤ → JSNum) (sa oa : ℤ) (bArr : ℤ → JSNum) (sb ob so shift : ℤ) :
    ∀ (m i : ℕ) (oo : ℤ) (out : ℤ → JSNum) (rand : RandSource),
      fillLoop sampler aArr sa oa bArr sb ob so oo i m (fun j => out (shift + j)) rand
        = ((fun j => (fillLoop sampler aArr sa oa bArr sb ob so (shift + oo)
              i m out rand).1 (shift + j)),
           (fillLoop sampler aArr sa oa bArr sb ob so (shift + oo) i m out rand).2) := by
  intro m
  induction m with
  | zero =>
    intro i oo out rand
    rfl
  | succ m ih =>
    intro i oo out rand
    simp only [fillLoop]
    rw [updInt_shift, ih]
    have harith : shift + (oo + i * so) = shift + oo + i * so := by ring
    rw [harith]

/-- Claim C6: a strided fill with N less than or equal to zero (zero or
negative) performs zero writes, leaving the output array unchanged, and
returns the output reference without raising an error, in both the
view-offset and the explicit-offset form (src/unnamed/part_000 lines
958-962; spec section 4.5). -/
theorem fill_nonpositive_noop (sampler : JSNum → JSNum → RandSource → JSNum × RandSource)
    (N : ℤ) (hN : N ≤ 0) (aArr bArr out : ℤ → JSNum)
    (sa sb so oa ob oo : ℤ) (rand : RandSource) :
    fillStrided sampler N aArr sa bArr sb out so rand = (out, rand) ∧
    fillNdarray sampler N aArr sa oa bArr sb ob out so oo rand = (out, rand) := by
  constructor
  · rw [fillStrided, fillNdarray, if_pos hN]
  · rw [fillNdarray, if_pos hN]

theorem fill_nonpositive_noop_witness :
    (fillStrided (fun a b r => erlang2 r a b) 0 (fun _ => .num 2) 0 (fun _ => .num 1) 0
        (fun _ => .num 0) 1 (.internal (mt19937Factory 3))
      = ((fun _ => .num 0), .internal (mt19937Factory 3)) ∧
      fillNdarray (fun a b r => erlang2 r a b) 0 (fun _ => .num 2) 0 0 (fun _ => .num 1) 0 0
        (fun _ => .num 0) 1 0 (.internal (mt19937Factory 3))
      = ((fun _ => .num 0), .internal (mt19937Factory 3))) ∧
    (fillStrided (fun a b r => erlang2 r a b) (-1) (fun _ => .num 2) 0 (fun _ => .num 1) 0
        (fun _ => .num 0) 1 (.internal (mt19937Factory 3))
      = ((fun _ => .num 0), .internal (mt19937Factory 3)) ∧
      fillNdarray (fun a b r => erlang2 r a b) (-1) (fun _ => .num 2) 0 0 (fun _ => .num 1) 0 0
        (fun _ => .num 0) 1 0 (.internal (mt19937Factory 3))
      = ((fun _ => .num 0), .internal (mt19937Factory 3))) :=
  ⟨fill_nonpositive_noop _ 0 (by decide) _ _ _ _ _ _ _ _ _ _,
   fill_nonpositive_noop _ (-1) (by decide) _ _ _ _ _ _ _ _ _ _⟩

/-- Claim C7: the view-offset form dist(N, a, 0, b, 0, out, s) and the
explicit-offset form dist.ndarray(N, a, 0, 0, b, 0, 0, out, s, o) write
identical values to identical slots once the buffer start of the
view-offset form is adjusted to match offset o: running the view-offset form on the
suitably shifted view of the buffer yields exactly the shifted view of
the ndarray-form result, with the same final generator state
(src/unnamed/part_000 lines 744-769; spec section 4.5). -/
theorem view_offset_ndarray_equivalent
    (sampler : JSNum → JSNum → RandSource → JSNum × RandSource)
    (N : ℤ) (aArr bArr out : ℤ → JSNum) (s o : ℤ) (rand : RandSource) :
    fillStrided sampler N aArr 0 bArr 0
        (fun j => out ((o - stride2offset N s) + j)) s rand
      = ((fun j => (fillNdarray sampler N aArr 0 0 bArr 0 0 out s o rand).1
            ((o - stride2offset N s) + j)),
         (fillNdarray sampler N aArr 0 0 bArr 0 0 out s o rand).2) := by
  unfold fillStrided fillNdarray
  have h0 : stride2offset N 0 = 0 := by simp [stride2offset]
  by_cases hN : N ≤ 0
  · rw [if_pos hN, if_pos hN]
  · rw [if_neg hN, if_neg hN, h0, fillLoop_shift]
    have harith : o - stride2offset N s + stride2offset N s = o := by ring
    rw [harith]
